import Mathlib

/-!
Verification development for the MCP-Permit-Helper repository.

The Python sources (`src/permit_matcher.py`, `src/form_filler.py`,
`src/server.py`) are shallowly embedded below: dictionaries become
association lists, Python truthiness becomes an explicit predicate on a
small value type, `datetime.now()` becomes an explicit `DateTime`
parameter carried by an `Env` record, and the filesystem side effect of
saving a rendered document is made explicit as a list of `WrittenDoc`
events returned alongside each result.  Exceptions are modelled with
`Except`: the `@server.call_tool()` boundary in `server.py` catches every
exception and turns it into an `Error: ...` text response, which is
modelled by `handleCallTool` pattern-matching on the `Except` produced by
`dispatchTool`.
-/

/-- Python scalar values as they occur in a `projectData` bag
(`Dict[str, Any]` in the source).  `Value.none` is Python `None`. -/
inductive Value where
  | str (s : String)
  | num (n : Int)
  | bool (b : Bool)
  | none
deriving DecidableEq, Repr

/-- Python truthiness (`bool(v)`) for the scalar values above: the empty
string, zero, `False` and `None` are falsy, everything else truthy.
Used by `validate_required_fields`, which tests `not project_data[field]`. -/
def Value.truthy : Value → Bool
  | .str s => !(s == "")
  | .num n => !(n == 0)
  | .bool b => b
  | .none => false

/-- Python `str(v)`, as used by f-string interpolation of a field value. -/
def Value.pyStr : Value → String
  | .str s => s
  | .num n => toString n
  | .bool b => if b then "True" else "False"
  | .none => "None"

/-- A Python `dict` is modelled as an association list with the dict's
insertion order; keys are unique in an actual `dict`, and lookups below
take the first matching entry. -/
abbrev ProjectData := List (String × Value)

/-- `d[k]` / `d.get(k)`: first entry with the given key. -/
def lookupV (d : ProjectData) (k : String) : Option Value :=
  (d.find? (fun kv => kv.1 == k)).map (·.2)

/-- One record of the `permits` list of `permit_rules.json`, as consumed by
`PermitMatcher` (`src/permit_matcher.py`). -/
structure Permit where
  id : String
  name : String
  triggers : List String
  requiredFields : List String
  template : String
deriving DecidableEq, Repr

/-- The projected dictionary appended by `PermitMatcher.identify_permits`
(keys `id`, `name`, `template`, `requiredFields`; `triggers` is dropped). -/
structure PermitResult where
  id : String
  name : String
  template : String
  requiredFields : List String
deriving DecidableEq, Repr

/-- The projection performed at `permit_matcher.py:48-53`. -/
def project (p : Permit) : PermitResult :=
  { id := p.id, name := p.name, template := p.template, requiredFields := p.requiredFields }

/-! ### String helpers modelling the Python string operations used -/

/-- Python `str.lower()` restricted to ASCII letters, which is all the
repository's trigger keywords and search text use: each of `A`–`Z` maps to
its lowercase counterpart and every other character is unchanged. -/
def pyCharLower (c : Char) : Char :=
  match c with
  | 'A' => 'a' | 'B' => 'b' | 'C' => 'c' | 'D' => 'd' | 'E' => 'e' | 'F' => 'f'
  | 'G' => 'g' | 'H' => 'h' | 'I' => 'i' | 'J' => 'j' | 'K' => 'k' | 'L' => 'l'
  | 'M' => 'm' | 'N' => 'n' | 'O' => 'o' | 'P' => 'p' | 'Q' => 'q' | 'R' => 'r'
  | 'S' => 's' | 'T' => 't' | 'U' => 'u' | 'V' => 'v' | 'W' => 'w' | 'X' => 'x'
  | 'Y' => 'y' | 'Z' => 'z'
  | c => c

/-- Python `s.lower()`. -/
def pyLower (s : String) : String := String.mk (s.data.map pyCharLower)

/-- Python `" ".join(xs)`. -/
def joinSpace : List String → String
  | [] => ""
  | [x] => x
  | x :: y :: xs => x ++ " " ++ joinSpace (y :: xs)

/-- Python `sep.join(xs)` for an arbitrary separator. -/
def joinSep (sep : String) : List String → String
  | [] => ""
  | [x] => x
  | x :: y :: xs => x ++ sep ++ joinSep sep (y :: xs)

/-- `needle` is a prefix of `hay` (character lists). -/
def isPrefixChars : List Char → List Char → Bool
  | [], _ => true
  | _ :: _, [] => false
  | a :: as, b :: bs => a == b && isPrefixChars as bs

/-- `needle` occurs contiguously somewhere in `hay` (character lists):
the semantics of Python's `needle in hay` on strings. -/
def occursIn : List Char → List Char → Bool
  | n, [] => isPrefixChars n []
  | n, c :: rest => isPrefixChars n (c :: rest) || occursIn n rest

/-- Python `needle in hay` for strings. -/
def strContains (hay needle : String) : Bool := occursIn needle.data hay.data

/-! ### PermitMatcher (`src/permit_matcher.py`) -/

/-- The combined search string of `identify_permits`
(`permit_matcher.py:36`): `f"{project_description} {' '.join(work_types)}".lower()`.
Note the f-string always inserts one space between the description and the
joined work types, even when `work_types` is empty. -/
def searchText (projectDescription : String) (workTypes : List String) : String :=
  pyLower (projectDescription ++ " " ++ joinSpace workTypes)

/-- `any(trigger.lower() in search_text for trigger in permit['triggers'])`
(`permit_matcher.py:42-45`). -/
def triggerMatches (searchTxt : String) (p : Permit) : Bool :=
  p.triggers.any (fun trigger => strContains searchTxt (pyLower trigger))

/-- The accumulation loop of `identify_permits` (`permit_matcher.py:40-53`):
append the projection of each permit whose triggers match, in catalog order. -/
def identifyPermitsGo (searchTxt : String) : List Permit → List PermitResult
  | [] => []
  | p :: ps =>
      if triggerMatches searchTxt p then project p :: identifyPermitsGo searchTxt ps
      else identifyPermitsGo searchTxt ps

/-- `PermitMatcher.identify_permits(project_description, work_types=None)`
(`permit_matcher.py:17-55`).  `rules` is the catalog's `permits` list; a
`work_types` of `Option.none` models the Python default `None`, replaced
by `[]` at line 32-33. -/
def identifyPermits (rules : List Permit) (projectDescription : String)
    (workTypes : Option (List String)) : List PermitResult :=
  let wts := workTypes.getD []
  identifyPermitsGo (searchText projectDescription wts) rules

/-- `PermitMatcher.get_permit_by_id` (`permit_matcher.py:57-62`).  The id
argument is an `Option` because the server passes `arguments.get("permitId")`,
which is `None` when the key is absent; `permit['id'] == None` is `False`
for every permit, so a `none` id never matches. -/
def getPermitById (rules : List Permit) (permitId : Option String) : Option Permit :=
  rules.find? (fun p => permitId == some p.id)

/-! ### FormFiller.validate_required_fields (`src/form_filler.py:72-91`) -/

/-- The dictionary `{'valid': ..., 'missingFields': ...}` returned by
`validate_required_fields`. -/
structure ValidationResult where
  valid : Bool
  missingFields : List String
deriving DecidableEq, Repr

/-- `field not in project_data or not project_data[field]`
(`form_filler.py:85`). -/
def fieldMissing (projectData : ProjectData) (field : String) : Bool :=
  match lookupV projectData field with
  | Option.none => true
  | Option.some v => !v.truthy

/-- `FormFiller.validate_required_fields` (`form_filler.py:72-91`): the
list comprehension keeps the required fields that are absent or falsy, in
the order of `required_fields`; `valid` is `len(missing_fields) == 0`. -/
def validateRequiredFields (projectData : ProjectData) (requiredFields : List String) :
    ValidationResult :=
  let missingFields := requiredFields.filter (fieldMissing projectData)
  { valid := missingFields.length == 0, missingFields := missingFields }

/-! ### FormFiller.fill_permit (`src/form_filler.py:17-70`) -/

/-- The invocation-time `datetime.now()` value.  All the `now()` calls in
`fill_permit` are modelled as the same instant (the code calls it several
times within one invocation). -/
structure DateTime where
  year : Nat
  month : Nat
  day : Nat
  hour : Nat
  minute : Nat
  second : Nat
deriving DecidableEq, Repr

/-- Two decimal digits with a leading zero, as produced by the zero-padded
`strftime` directives `%m`, `%d`, `%H`, `%M`, `%S`. -/
def pad2 (n : Nat) : String := if n < 10 then "0" ++ toString n else toString n

/-- Four decimal digits with leading zeros, as produced by `%Y`. -/
def pad4 (n : Nat) : String :=
  if n < 10 then "000" ++ toString n
  else if n < 100 then "00" ++ toString n
  else if n < 1000 then "0" ++ toString n
  else toString n

/-- `datetime.now().strftime('%m/%d/%Y')` (`form_filler.py:47-49`). -/
def fmtMDY (now : DateTime) : String :=
  pad2 now.month ++ "/" ++ pad2 now.day ++ "/" ++ pad4 now.year

/-- `datetime.now().strftime('%Y%m%d-%H%M%S')` (`form_filler.py:57`). -/
def fmtTimestamp (now : DateTime) : String :=
  pad4 now.year ++ pad2 now.month ++ pad2 now.day ++ "-" ++
    pad2 now.hour ++ pad2 now.minute ++ pad2 now.second

/-- Python `d[k] = v` on a dict: replace the value of an existing key in
place, otherwise append the new entry at the end. -/
def setKey (d : ProjectData) (k : String) (v : Value) : ProjectData :=
  if (lookupV d k).isSome then
    d.map (fun kv => if kv.1 == k then (kv.1, v) else kv)
  else d ++ [(k, v)]

/-- The `fill_data` dict of `fill_permit` (`form_filler.py:45-51`):
`{**project_data, 'permitDate': ..., 'applicationDate': ...,
'currentDate': ..., 'year': ...}` — the four literal keys are written
after the spread, so their computed values override any caller-supplied
entries of the same name. -/
def buildFillData (projectData : ProjectData) (now : DateTime) : ProjectData :=
  setKey (setKey (setKey (setKey projectData
    "permitDate" (Value.str (fmtMDY now)))
    "applicationDate" (Value.str (fmtMDY now)))
    "currentDate" (Value.str (fmtMDY now)))
    "year" (Value.num now.year)

/-- Ambient state of the process that the two stateful operations consume:
the invocation-time clock, the configured directories, and which template
files exist on disk (`template_path.exists()`). -/
structure Env where
  now : DateTime
  templatesDir : String
  outputDir : String
  templateExists : String → Bool

/-- The success dictionary returned by `fill_permit` (`form_filler.py:64-70`). -/
structure FillSuccess where
  permitName : String
  outputFile : String
  outputPath : String
  message : String
deriving DecidableEq, Repr

/-- A document written to the output directory: the filename, the template
it was rendered from, and the payload handed to `doc.render`.  The
external docx engine itself is out of scope; recording its inputs makes
the claims about "what is rendered/written" statable. -/
structure WrittenDoc where
  filename : String
  template : String
  payload : ProjectData
deriving DecidableEq, Repr

/-- `FormFiller.fill_permit` (`form_filler.py:17-70`).  Raising
`FileNotFoundError` is modelled as `Except.error` with the exception's
message; on success the returned write list holds the single saved
document.  No write happens on the error path (the `raise` precedes both
`doc.render` and `doc.save`). -/
def fillPermit (env : Env) (templateName : String) (permitId : String)
    (permitName : String) (projectData : ProjectData) :
    Except String (FillSuccess × List WrittenDoc) :=
  if env.templateExists templateName then
    let fillData := buildFillData projectData env.now
    let timestamp := fmtTimestamp env.now
    let outputFilename := permitId ++ "-permit-" ++ timestamp ++ ".docx"
    Except.ok
      ({ permitName := permitName
         outputFile := outputFilename
         outputPath := env.outputDir ++ "/" ++ outputFilename
         message := permitName ++ " has been filled and saved" },
       [{ filename := outputFilename, template := templateName, payload := fillData }])
  else
    Except.error ("Template not found: " ++ env.templatesDir ++ "/" ++ templateName)

/-! ### The tool boundary (`src/server.py`) -/

/-- JSON values, the shape of the structured payloads the server
serializes with `json.dumps`.  Object fields are listed in the insertion
order of the Python dict literal. -/
inductive J where
  | str (s : String)
  | num (n : Int)
  | bool (b : Bool)
  | null
  | arr (xs : List J)
  | obj (fields : List (String × J))

/-- A tool response: the single `types.TextContent` item returned by every
branch.  Plain texts (previews, error messages, "no permits" notices) are
`.text`; `json.dumps`-serialized payloads are kept structured as `.json`. -/
inductive ToolResponse where
  | text (s : String)
  | json (v : J)

/-- The `arguments` bag of a tool call.  Each field is `Option`-valued:
`Option.none` models a key absent from the bag, so `arguments.get(k)`
is the field itself and `arguments.get(k, default)` is `getD`. -/
structure Arguments where
  projectDescription : Option String := Option.none
  workTypes : Option (List String) := Option.none
  permitId : Option String := Option.none
  projectData : Option ProjectData := Option.none

/-- Python `str(x)` for an optional string: `str(None)` is `"None"`,
as interpolated by `f"Permit not found: {permit_id}"`. -/
def pyStrOpt : Option String → String
  | Option.none => "None"
  | Option.some s => s

/-- `json`-serialization of an optional string (`None` becomes `null`). -/
def jOfOpt : Option String → J
  | Option.none => J.null
  | Option.some s => J.str s

/-- A run of `n` copies of one character, e.g. `"=" * 70`. -/
def repChar (c : Char) (n : Nat) : String := String.mk (List.replicate n c)

/-- Python `s.strip()` (both-ends whitespace strip). -/
def pyStrip (s : String) : String :=
  String.mk (((s.data.dropWhile Char.isWhitespace).reverse.dropWhile Char.isWhitespace).reverse)

/-- The `replacements` table of `_format_field_name` (`server.py:88-127`),
in dict insertion order. -/
def fieldNameReplacements : List (String × String) :=
  [("Projectaddress", "Project Address"), ("Ownername", "Owner Name"),
   ("Ownerphone", "Owner Phone"), ("Owneremail", "Owner Email"),
   ("Contractorname", "Contractor Name"), ("Contractorlicense", "Contractor License"),
   ("Contractorphone", "Contractor Phone"), ("Insurancepolicy", "Insurance Policy"),
   ("Projectdescription", "Project Description"), ("Worktype", "Work Type"),
   ("Estimatedcost", "Estimated Cost"), ("Startdate", "Start Date"),
   ("Buildingarea", "Building Area"), ("Electricianname", "Electrician Name"),
   ("Electricianlicense", "Electrician License"), ("Electricianphone", "Electrician Phone"),
   ("Electriciancompany", "Electrician Company"), ("Workdescription", "Work Description"),
   ("Servicetype", "Service Type"), ("Numcircuits", "Number of Circuits"),
   ("Panelupgrade", "Panel Upgrade"), ("Newservice", "New Service"),
   ("Specialrequirements", "Special Requirements"), ("Plumbername", "Plumber Name"),
   ("Plumberlicense", "Plumber License"), ("Plumberphone", "Plumber Phone"),
   ("Plumbercompany", "Plumber Company"), ("Waterconnection", "Water Connection"),
   ("Sewerconnection", "Sewer Connection"), ("Gaslines", "Gas Lines"),
   ("Numfixtures", "Number of Fixtures"), ("Waterheater", "Water Heater"),
   ("Backflowprevention", "Backflow Prevention"), ("Demolitionscope", "Demolition Scope"),
   ("Salvageplan", "Salvage Plan"), ("Wastedisposal", "Waste Disposal"),
   ("Environmentalimpact", "Environmental Impact"), ("Mitigationplan", "Mitigation Plan")]

/-- `_format_field_name` (`server.py:80-134`): insert a space before each
uppercase letter, strip, capitalize the first letter, then replace the
whole name by the first table entry whose key occurs (case-insensitively)
in it, breaking at the first hit. -/
def formatFieldName (field : String) : String :=
  let spaced := pyStrip (String.mk (field.data.flatMap
    (fun c => if c.isUpper then [' ', c] else [c])))
  let capped :=
    match spaced.data with
    | [] => ""
    | c :: rest => String.mk (c.toUpper :: rest)
  match fieldNameReplacements.find?
      (fun kv => strContains (pyLower capped) (pyLower kv.1)) with
  | Option.some kv => kv.2
  | Option.none => capped

/-- Python `f"{name:.<40}"`: left-justify, padding with dots to width 40. -/
def padDots (s : String) : String :=
  if s.data.length < 40 then s ++ repChar '.' (40 - s.data.length) else s

/-- One `requiredFields` display line of the previews
(`server.py:368-376` and `449-456`): the value is
`project_data.get(field, '[NOT PROVIDED]')`, flagged when it equals the
sentinel. -/
def fieldLine (projectData : ProjectData) (field : String) : String :=
  let value := (lookupV projectData field).getD (Value.str "[NOT PROVIDED]")
  let mark := if value = Value.str "[NOT PROVIDED]" then "  ⚠️  " else "  ✓  "
  mark ++ padDots (formatFieldName field) ++ " " ++ value.pyStr

/-- The preview text built by the `preview_permit` branch
(`server.py:348-398`) for a found permit. -/
def previewPermitText (permit : Permit) (projectData : ProjectData) (now : DateTime) : String :=
  let validation := validateRequiredFields projectData permit.requiredFields
  let headerLines :=
    [repChar '=' 70, "PERMIT PREVIEW: " ++ permit.name, repChar '=' 70, ""]
  let statusLines :=
    if !validation.valid then
      ["⚠️  WARNING: Missing Required Fields",
       "   Missing: " ++ joinSep ", " (validation.missingFields.map formatFieldName), ""]
    else ["✓ All required fields present", ""]
  let fieldLines :=
    ["FIELD VALUES:", repChar '-' 70] ++
      permit.requiredFields.map (fieldLine projectData) ++
      [repChar '-' 70, ""]
  let autoLines :=
    ["AUTO-FILLED FIELDS:",
     "  Application Date................ " ++ fmtMDY now,
     "  Permit Date..................... " ++ fmtMDY now, "",
     repChar '=' 70]
  let tailLines :=
    if validation.valid then
      ["", "✓ This permit is ready to be saved.",
       "  Use \x27fill_permit_form\x27 to save it, or provide updated data if needed."]
    else
      ["", "⚠️  This permit is missing required fields.",
       "  Please provide the missing data before saving."]
  joinSep "\n" (headerLines ++ statusLines ++ fieldLines ++ autoLines ++ tailLines)

/-- The per-permit block of `preview_all_permits` (`server.py:427-456`),
with `i` the 1-based counter from `enumerate(required_permits, 1)`. -/
def previewAllBlock (i : Nat) (permit : Permit) (projectData : ProjectData) : List String :=
  let validation := validateRequiredFields projectData permit.requiredFields
  let statusLines :=
    if validation.valid then ["✓ Status: READY TO SAVE"]
    else
      ["⚠️  Status: MISSING FIELDS",
       "   Missing: " ++ joinSep ", " (validation.missingFields.map formatFieldName)]
  ["\n" ++ repChar '#' 70, "PERMIT " ++ toString i ++ ": " ++ permit.name,
   repChar '#' 70 ++ "\n"] ++
    statusLines ++ ["", "Required Fields:"] ++
    permit.requiredFields.map (fieldLine projectData)

/-- The loop of `preview_all_permits` (`server.py:427-456`): each resolved
permit is re-fetched by id; if the lookup ever produced `None`, the
subscript `permit['name']` would raise a `TypeError`, which is modelled as
the exception's Python message. -/
def previewAllBlocks (rules : List Permit) (projectData : ProjectData) :
    Nat → List PermitResult → Except String (List String)
  | _, [] => Except.ok []
  | i, pi :: rest =>
    match getPermitById rules (Option.some pi.id) with
    | Option.none => Except.error "\x27NoneType\x27 object is not subscriptable"
    | Option.some permit => do
        let restLines ← previewAllBlocks rules projectData (i + 1) rest
        Except.ok (previewAllBlock i permit projectData ++ restLines)

/-- Serialization of one entry of the `identify_permits` result inside the
`identify_required_permits` response (`server.py:320-326`). -/
def permitResultJ (pr : PermitResult) : J :=
  J.obj [("id", J.str pr.id), ("name", J.str pr.name), ("template", J.str pr.template),
         ("requiredFields", J.arr (pr.requiredFields.map J.str))]

/-- Serialization of the success dict of `fill_permit`
(`form_filler.py:64-70`), as dumped by the server. -/
def fillSuccessJ (r : FillSuccess) : J :=
  J.obj [("success", J.bool true), ("permitName", J.str r.permitName),
         ("outputFile", J.str r.outputFile), ("outputPath", J.str r.outputPath),
         ("message", J.str r.message)]

/-- The validation-failure payload of the `fill_permit_form` branch
(`server.py:485-494`). -/
def validationFailJ (validation : ValidationResult) (permitName : String) : J :=
  J.obj [("success", J.bool false), ("error", J.str "Missing required fields"),
         ("missingFields", J.arr (validation.missingFields.map J.str)),
         ("permitName", J.str permitName)]

/-- The `identify_required_permits` branch (`server.py:311-331`). -/
def identifyRequiredPermitsTool (rules : List Permit) (a : Arguments) :
    Except String (ToolResponse × List WrittenDoc) :=
  let projectDescription := a.projectDescription.getD ""
  let workTypes := a.workTypes.getD []
  let requiredPermits := identifyPermits rules projectDescription (Option.some workTypes)
  Except.ok (ToolResponse.json (J.obj
    [("requiredPermits", J.arr (requiredPermits.map permitResultJ)),
     ("count", J.num requiredPermits.length),
     ("message", J.str (if requiredPermits.isEmpty then
        "No permits required based on description"
      else "Found " ++ toString requiredPermits.length ++ " required permit(s)"))]), [])

/-- The `preview_permit` branch (`server.py:333-403`). -/
def previewPermitTool (env : Env) (rules : List Permit) (a : Arguments) :
    Except String (ToolResponse × List WrittenDoc) :=
  let projectData := a.projectData.getD []
  match getPermitById rules a.permitId with
  | Option.none => Except.error ("Permit not found: " ++ pyStrOpt a.permitId)
  | Option.some permit =>
      Except.ok (ToolResponse.text (previewPermitText permit projectData env.now), [])

/-- The `preview_all_permits` branch (`server.py:405-468`); note that it
calls `identify_permits` with only the description, so `work_types`
defaults to `None`. -/
def previewAllPermitsTool (rules : List Permit) (a : Arguments) :
    Except String (ToolResponse × List WrittenDoc) :=
  let projectDescription := a.projectDescription.getD ""
  let projectData := a.projectData.getD []
  let requiredPermits := identifyPermits rules projectDescription Option.none
  if requiredPermits.isEmpty then
    Except.ok (ToolResponse.text "No permits required for this project description.", [])
  else do
    let blocks ← previewAllBlocks rules projectData 1 requiredPermits
    let headerLines :=
      [repChar '=' 70, "PREVIEW: ALL REQUIRED PERMITS", repChar '=' 70, "",
       "Total Permits Required: " ++ toString requiredPermits.length, ""]
    let tailLines :=
      ["\n" ++ repChar '=' 70, "\nNEXT STEPS:", "  1. Review the data above",
       "  2. Provide any missing information",
       "  3. Use \x27fill_all_required_permits\x27 to save all permits",
       "     OR use \x27fill_permit_form\x27 to save individual permits"]
    Except.ok (ToolResponse.text (joinSep "\n" (headerLines ++ blocks ++ tailLines)), [])

/-- The `fill_permit_form` branch (`server.py:470-507`): look the permit up
(raising "Permit not found" on a miss), validate, return the structured
failure payload without filling when invalid, otherwise delegate to
`fill_permit` and serialize its result. -/
def fillPermitFormTool (env : Env) (rules : List Permit) (a : Arguments) :
    Except String (ToolResponse × List WrittenDoc) :=
  let projectData := a.projectData.getD []
  match getPermitById rules a.permitId with
  | Option.none => Except.error ("Permit not found: " ++ pyStrOpt a.permitId)
  | Option.some permit =>
      let validation := validateRequiredFields projectData permit.requiredFields
      if !validation.valid then
        Except.ok (ToolResponse.json (validationFailJ validation permit.name), [])
      else do
        let (result, writes) ← fillPermit env permit.template permit.id permit.name projectData
        Except.ok (ToolResponse.json (fillSuccessJ result), writes)

/-- The body of the per-permit `try` block inside `fill_all_required_permits`
(`server.py:528-562`): re-fetch the permit by id, validate, and either
record a missing-fields entry, or fill and record the success entry; any
exception inside the block (the unreachable `None` subscript, or
`fill_permit`'s `FileNotFoundError`) becomes a `{success:false, permitId,
error}` entry.  Each branch contributes exactly one entry and the writes
it performed. -/
def processPermitInfo (env : Env) (rules : List Permit) (projectData : ProjectData)
    (permitInfo : PermitResult) : J × List WrittenDoc :=
  match getPermitById rules (Option.some permitInfo.id) with
  | Option.none =>
      (J.obj [("success", J.bool false), ("permitId", J.str permitInfo.id),
              ("error", J.str "\x27NoneType\x27 object is not subscriptable")], [])
  | Option.some permit =>
      let validation := validateRequiredFields projectData permit.requiredFields
      if !validation.valid then
        (J.obj [("success", J.bool false), ("permitId", J.str permit.id),
                ("permitName", J.str permit.name),
                ("error", J.str "Missing required fields"),
                ("missingFields", J.arr (validation.missingFields.map J.str))], [])
      else
        match fillPermit env permit.template permit.id permit.name projectData with
        | Except.error e =>
            (J.obj [("success", J.bool false), ("permitId", J.str permitInfo.id),
                    ("error", J.str e)], [])
        | Except.ok (result, writes) => (fillSuccessJ result, writes)

/-- The `fill_all_required_permits` branch (`server.py:509-571`). -/
def fillAllRequiredPermitsTool (env : Env) (rules : List Permit) (a : Arguments) :
    Except String (ToolResponse × List WrittenDoc) :=
  let projectDescription := a.projectDescription.getD ""
  let workTypes := a.workTypes.getD []
  let projectData := a.projectData.getD []
  let requiredPermits := identifyPermits rules projectDescription (Option.some workTypes)
  if requiredPermits.isEmpty then
    Except.ok (ToolResponse.text "No permits required for this project", [])
  else
    let entries := requiredPermits.map (processPermitInfo env rules projectData)
    Except.ok (ToolResponse.json (J.obj
      [("totalPermits", J.num (entries.map Prod.fst).length),
       ("results", J.arr (entries.map Prod.fst)),
       ("message", J.str "All required permits have been processed")]),
      (entries.map Prod.snd).flatten)

/-- The `list_available_permits` branch (`server.py:573-582`), using
`PermitMatcher.list_all_permits` (`permit_matcher.py:64-73`). -/
def listAvailablePermitsTool (rules : List Permit) :
    Except String (ToolResponse × List WrittenDoc) :=
  let permits := rules.map (fun p =>
    J.obj [("id", J.str p.id), ("name", J.str p.name),
           ("triggers", J.arr (p.triggers.map J.str))])
  Except.ok (ToolResponse.json (J.obj
    [("permits", J.arr permits), ("count", J.num permits.length)]), [])

/-- The `validate_permit_data` branch (`server.py:584-606`). -/
def validatePermitDataTool (rules : List Permit) (a : Arguments) :
    Except String (ToolResponse × List WrittenDoc) :=
  let projectData := a.projectData.getD []
  match getPermitById rules a.permitId with
  | Option.none => Except.error ("Permit not found: " ++ pyStrOpt a.permitId)
  | Option.some permit =>
      let validation := validateRequiredFields projectData permit.requiredFields
      Except.ok (ToolResponse.json (J.obj
        [("permitId", jOfOpt a.permitId), ("permitName", J.str permit.name),
         ("valid", J.bool validation.valid),
         ("missingFields", J.arr (validation.missingFields.map J.str)),
         ("requiredFields", J.arr (permit.requiredFields.map J.str))]), [])

/-- The `if name == ... / elif ... / else raise` dispatch of
`handle_call_tool` (`server.py:310-609`), with exceptions still
propagating (`Except.error` carries `str(e)`). -/
def dispatchTool (env : Env) (rules : List Permit) (name : String) (a : Arguments) :
    Except String (ToolResponse × List WrittenDoc) :=
  if name == "identify_required_permits" then identifyRequiredPermitsTool rules a
  else if name == "preview_permit" then previewPermitTool env rules a
  else if name == "preview_all_permits" then previewAllPermitsTool rules a
  else if name == "fill_permit_form" then fillPermitFormTool env rules a
  else if name == "fill_all_required_permits" then fillAllRequiredPermitsTool env rules a
  else if name == "list_available_permits" then listAvailablePermitsTool rules
  else if name == "validate_permit_data" then validatePermitDataTool rules a
  else Except.error ("Unknown tool: " ++ name)

/-- `handle_call_tool` (`server.py:303-615`): the whole dispatch runs
inside one `try`, and the trailing `except Exception as e` converts any
raised exception into the text response `f"Error: {str(e)}"`.  No writes
accompany an escaped exception in this code base (the only write in
`fill_permit` happens after its last possible raise, and the batch branch
catches per-permit exceptions itself). -/
def handleCallTool (env : Env) (rules : List Permit) (name : String) (a : Arguments) :
    ToolResponse × List WrittenDoc :=
  match dispatchTool env rules name a with
  | Except.ok r => r
  | Except.error e => (ToolResponse.text ("Error: " ++ e), [])

/-! ### Concrete fixtures and the spec-words search string -/

/-- Search string built exactly as claim C1's words describe it: "the
lower-cased concatenation of the description and the space-joined work
types", i.e. with no separator between the two parts.  Declared only to
compare the claim's reading against the code's `searchText`, which always
inserts one space between them. -/
def claimSearchText (projectDescription : String) (workTypes : List String) : String :=
  pyLower (projectDescription ++ joinSpace workTypes)

/-- Counterexample catalog entry for C1: a single trigger that spans the
description/work-types boundary. -/
def cexPermitC1 : Permit :=
  { id := "p1", name := "P1", triggers := ["a b"], requiredFields := [], template := "t.docx" }

/-- Counterexample catalog entry for C3: its only trigger is a single
space, which is not the empty string but matches the `" "` search string
produced by an empty description and empty work types. -/
def cexPermitC3 : Permit :=
  { id := "p2", name := "P2", triggers := [" "], requiredFields := [], template := "t.docx" }

/-- Demo catalog entry: a building permit requiring one field. -/
def permitBuilding : Permit :=
  { id := "building", name := "Building Permit", triggers := ["construction"],
    requiredFields := ["ownerName"], template := "building.docx" }

/-- Demo catalog entry: an electrical permit requiring two fields. -/
def permitElectrical : Permit :=
  { id := "electrical", name := "Electrical Permit", triggers := ["electrical work", "wiring"],
    requiredFields := ["ownerName", "electricianLicense"], template := "electrical.docx" }

/-- Demo catalog. -/
def rulesDemo : List Permit := [permitBuilding, permitElectrical]

/-- Demo environment: a fixed invocation instant, every template present. -/
def envDemo : Env :=
  { now := { year := 2024, month := 3, day := 7, hour := 12, minute := 0, second := 0 },
    templatesDir := "templates", outputDir := "output", templateExists := fun _ => true }

/-- Demo environment in which no template file exists. -/
def envNoTemplates : Env :=
  { now := { year := 2024, month := 3, day := 7, hour := 12, minute := 0, second := 0 },
    templatesDir := "templates", outputDir := "output", templateExists := fun _ => false }

/-- Demo project data: only `ownerName` supplied. -/
def dataOwnerOnly : ProjectData := [("ownerName", Value.str "Jane")]

/-- Demo arguments resolving both demo permits, with data that satisfies
the building permit but leaves the electrical permit one field short. -/
def argsDemo : Arguments :=
  { projectDescription := Option.some "construction wiring",
    projectData := Option.some dataOwnerOnly }


/-! ### Helper lemmas -/

theorem string_eq_of_data {a b : String} (h : a.data = b.data) : a = b := by
  cases a; cases b; exact congrArg String.mk h

theorem data_append (a b : String) : (a ++ b).data = a.data ++ b.data := rfl

theorem isPrefixChars_iff (n h : List Char) :
    isPrefixChars n h = true ↔ ∃ t, n ++ t = h := by
  induction n generalizing h with
  | nil => simp [isPrefixChars]
  | cons a as ih =>
    cases h with
    | nil => simp [isPrefixChars]
    | cons b bs =>
      simp only [isPrefixChars, Bool.and_eq_true, beq_iff_eq, ih, List.cons_append,
        List.cons.injEq]
      constructor
      · rintro ⟨hab, t, ht⟩; exact ⟨t, hab, ht⟩
      · rintro ⟨t, hab, ht⟩; exact ⟨hab, t, ht⟩


theorem occursIn_iff (n h : List Char) :
    occursIn n h = true ↔ ∃ s t, s ++ n ++ t = h := by
  induction h with
  | nil =>
    simp only [occursIn, isPrefixChars_iff]
    constructor
    · rintro ⟨t, ht⟩
      exact ⟨[], t, by simpa using ht⟩
    · rintro ⟨s, t, hst⟩
      rcases List.append_eq_nil.mp hst with ⟨hs, h2⟩
      rcases List.append_eq_nil.mp hs with ⟨_, hn⟩
      exact ⟨[], by simp [hn]⟩
  | cons c rest ih =>
    simp only [occursIn, Bool.or_eq_true, isPrefixChars_iff, ih]
    constructor
    · rintro (⟨t, ht⟩ | ⟨s, t, hst⟩)
      · exact ⟨[], t, by simpa using ht⟩
      · exact ⟨c :: s, t, by simp [← hst]⟩
    · rintro ⟨s, t, hst⟩
      cases s with
      | nil => exact Or.inl ⟨t, by simpa using hst⟩
      | cons s0 ss =>
        simp only [List.cons_append, List.cons.injEq] at hst
        exact Or.inr ⟨ss, t, hst.2⟩

theorem occursIn_append_right {n h : List Char} (k : List Char)
    (hocc : occursIn n h = true) : occursIn n (h ++ k) = true := by
  rcases (occursIn_iff n h).mp hocc with ⟨s, t, hst⟩
  exact (occursIn_iff n (h ++ k)).mpr ⟨s, t ++ k, by rw [← hst]; simp⟩

theorem identifyPermitsGo_eq (searchTxt : String) (rules : List Permit) :
    identifyPermitsGo searchTxt rules =
      (rules.filter (triggerMatches searchTxt)).map project := by
  induction rules with
  | nil => rfl
  | cons p ps ih =>
    by_cases hp : triggerMatches searchTxt p
    · simp [identifyPermitsGo, List.filter_cons, hp, ih]
    · simp [identifyPermitsGo, List.filter_cons, hp, ih]

theorem getPermitById_none (rules : List Permit) :
    getPermitById rules Option.none = Option.none := by
  rw [getPermitById, List.find?_eq_none]
  intro p _
  simp

theorem pyLower_eq_empty {t : String} (h : pyLower t = "") : t = "" := by
  have hd : t.data.map pyCharLower = [] := congrArg String.data h
  exact string_eq_of_data (by simpa using List.map_eq_nil_iff.mp hd)

theorem pyCharLower_space {c : Char} (h : pyCharLower c = ' ') : c = ' ' := by
  unfold pyCharLower at h
  split at h <;> first | exact h | exact absurd h (by decide)

theorem pyLower_eq_space {t : String} (h : pyLower t = " ") : t = " " := by
  have hd : t.data.map pyCharLower = [' '] := congrArg String.data h
  cases ht : t.data with
  | nil => rw [ht] at hd; simp at hd
  | cons c cs =>
    rw [ht] at hd
    simp only [List.map_cons, List.cons.injEq] at hd
    have hc : c = ' ' := pyCharLower_space hd.1
    have hcs : cs = [] := List.map_eq_nil_iff.mp hd.2
    exact string_eq_of_data (by simp [ht, hc, hcs])

theorem lookupV_cons (kv : String × Value) (d : ProjectData) (k : String) :
    lookupV (kv :: d) k = if kv.1 = k then Option.some kv.2 else lookupV d k := by
  simp only [lookupV, List.find?]
  cases h : kv.1 == k
  · rw [beq_eq_false_iff_ne] at h
    simp [h]
  · rw [beq_iff_eq] at h
    simp [h]

theorem lookupV_map_set (d : ProjectData) (k : String) (v : Value) (k' : String) :
    lookupV (d.map (fun kv => if kv.1 == k then (kv.1, v) else kv)) k' =
      if k' = k then (lookupV d k).map (fun _ => v) else lookupV d k' := by
  induction d with
  | nil => by_cases h : k' = k <;> simp [lookupV, h]
  | cons kv rest ih =>
    simp only [List.map_cons]
    by_cases h1 : kv.1 = k
    · by_cases h2 : k' = k
      · subst h2
        simp [lookupV_cons, h1, beq_iff_eq]
      · have hne : ¬(kv.1 = k') := fun hc => h2 (hc ▸ h1 ▸ rfl)
        simp only [h1, beq_self_eq_true, if_true, lookupV_cons, ih, if_neg h2]
        have hn : ¬k = k' := fun hc => h2 hc.symm
        rw [if_neg hn, if_neg hn]
    · have hb : (kv.1 == k) = false := beq_eq_false_iff_ne.mpr h1
      simp only [hb, Bool.false_eq_true, if_false, lookupV_cons, ih]
      by_cases h3 : kv.1 = k'
      · have hk'k : ¬(k' = k) := fun hc => h1 (h3.symm ▸ hc)
        simp [h3, hk'k]
      · by_cases h2 : k' = k <;> simp [h2, h3, h1]

theorem lookupV_setKey (d : ProjectData) (k : String) (v : Value) (k' : String) :
    lookupV (setKey d k v) k' = if k' = k then Option.some v else lookupV d k' := by
  rw [setKey]
  cases hlk : lookupV d k with
  | none =>
    simp only [hlk, Option.isSome_none, Bool.false_eq_true, if_false]
    induction d with
    | nil =>
      by_cases h : k' = k
      · simp [lookupV_cons, h]
      · rw [List.nil_append, lookupV_cons, if_neg (fun hc : k = k' => h hc.symm), if_neg h]
    | cons kv rest ih =>
      rw [List.cons_append, lookupV_cons, lookupV_cons]
      rw [lookupV_cons] at hlk
      have hk : ¬kv.1 = k := by
        intro hc
        rw [if_pos hc] at hlk
        exact absurd hlk (by simp)
      rw [if_neg hk] at hlk
      by_cases h3 : kv.1 = k'
      · have h2 : ¬k' = k := fun hc => hk (hc ▸ h3)
        simp [h3, h2]
      · rw [if_neg h3, if_neg h3]
        exact ih hlk
  | some v0 =>
    simp only [hlk, Option.isSome_some, if_true]
    rw [lookupV_map_set]
    by_cases h : k' = k <;> simp [h, hlk]

/-! ### Claim theorems -/

/-- C1 (counterexample): the claim as stated is false.  With the
one-permit catalog `[cexPermitC1]` (single trigger `"a b"`), description
`"a"` and work-type list `["b"]`, the code's f-string search text is
`"a b"`, so the permit is returned — but no trigger of the permit occurs
in the claim's search string, the concatenation of the description and
the space-joined work types, which is `"ab"`. -/
theorem c1_counterexample :
    ¬((project cexPermitC1 ∈ identifyPermits [cexPermitC1] "a" (Option.some ["b"])) ↔
      ∃ t ∈ cexPermitC1.triggers,
        strContains (claimSearchText "a" ["b"]) (pyLower t) = true) := by
  decide

/-- C1 (amended): a permit definition appears in the result of
`identify_permits` iff at least one of its lower-cased triggers occurs as
a substring of the lower-cased string formed by the description, a single
separating space, and the space-joined work types (`searchText`); the
result is exactly the catalog-order filter of the catalog projected to
result entries, so each matching catalog entry contributes exactly one
result, in catalog iteration order. -/
theorem c1_identify_permits_spec (rules : List Permit) (desc : String) (wts : List String) :
    identifyPermits rules desc (Option.some wts) =
      (rules.filter (triggerMatches (searchText desc wts))).map project ∧
    ∀ q : PermitResult, q ∈ identifyPermits rules desc (Option.some wts) ↔
      ∃ p, p ∈ rules ∧ (∃ t ∈ p.triggers, strContains (searchText desc wts) (pyLower t) = true)
        ∧ q = project p := by
  refine ⟨identifyPermitsGo_eq _ _, fun q => ?_⟩
  rw [show identifyPermits rules desc (Option.some wts) =
    identifyPermitsGo (searchText desc wts) rules from rfl, identifyPermitsGo_eq]
  simp only [List.mem_map, List.mem_filter, triggerMatches, List.any_eq_true]
  constructor
  · rintro ⟨p, ⟨hp, t, ht, hc⟩, hq⟩
    exact ⟨p, hp, ⟨t, ht, hc⟩, hq.symm⟩
  · rintro ⟨p, hp, ⟨t, ht, hc⟩, hq⟩
    exact ⟨p, ⟨hp, t, ht, hc⟩, hq.symm⟩

/-- C2: `validate_required_fields` returns as `missingFields` exactly the
required fields that are absent from the data bag or mapped to a falsy
value, in the order of the required list, and `valid` holds iff that list
is empty. -/
theorem c2_validate_spec (projectData : ProjectData) (requiredFields : List String) :
    (validateRequiredFields projectData requiredFields).missingFields =
      requiredFields.filter (fun field =>
        match lookupV projectData field with
        | Option.none => true
        | Option.some v => !v.truthy) ∧
    ((validateRequiredFields projectData requiredFields).valid = true ↔
      (validateRequiredFields projectData requiredFields).missingFields = []) := by
  refine ⟨rfl, ?_⟩
  simp [validateRequiredFields, List.length_eq_zero]

/-- C3 (counterexample): the claim as stated is false.  The catalog
`[cexPermitC3]` contains no empty-string trigger (its only trigger is a
single space), yet resolving with an empty description and an empty
work-type list returns that permit, because the f-string search text is
`" "`, not the empty string. -/
theorem c3_counterexample :
    (∀ t ∈ cexPermitC3.triggers, t ≠ "") ∧
      identifyPermits [cexPermitC3] "" (Option.some []) ≠ [] := by
  decide

/-- C3 (amended): with an empty description and an empty work-type list
the search string is the single space `" "`, so resolution yields the
empty permit list provided no trigger of the catalog is the empty string
or the single-space string. -/
theorem c3_empty_resolve (rules : List Permit)
    (h : ∀ p ∈ rules, ∀ t ∈ p.triggers, t ≠ "" ∧ t ≠ " ") :
    identifyPermits rules "" (Option.some []) = [] := by
  rw [show identifyPermits rules "" (Option.some []) =
    identifyPermitsGo (searchText "" []) rules from rfl, identifyPermitsGo_eq]
  rw [List.map_eq_nil_iff, List.filter_eq_nil_iff]
  intro p hp
  simp only [triggerMatches, List.any_eq_true, not_exists, not_and, Bool.not_eq_true]
  intro t ht
  rcases h p hp t ht with ⟨hne, hns⟩
  by_contra hc
  rw [Bool.not_eq_false] at hc
  have hs : searchText "" [] = " " := rfl
  rw [hs] at hc
  rcases (occursIn_iff (pyLower t).data [' ']).mp hc with ⟨s, t', hst⟩
  cases s with
  | nil =>
    cases hd : (pyLower t).data with
    | nil => exact hne (pyLower_eq_empty (string_eq_of_data (by simpa using hd)))
    | cons c cs =>
      rw [hd] at hst
      simp only [List.nil_append, List.cons_append, List.cons.injEq] at hst
      rcases hst with ⟨hcsp, hrest⟩
      rcases List.append_eq_nil.mp hrest with ⟨hcs, _⟩
      exact hns (pyLower_eq_space (string_eq_of_data (by simp [hd, hcsp, hcs])))
  | cons s0 ss =>
    simp only [List.cons_append, List.cons.injEq] at hst
    rcases hst with ⟨_, hrest⟩
    rcases List.append_eq_nil.mp hrest with ⟨hsn, _⟩
    rcases List.append_eq_nil.mp hsn with ⟨_, hn⟩
    exact hne (pyLower_eq_empty (string_eq_of_data (by simpa using hn)))

/-- C4: the render payload built by `fill_permit` is the supplied data bag
with the four reserved keys `permitDate`, `applicationDate`, `currentDate`
(the invocation-time date in zero-padded `%m/%d/%Y` form) and `year` (the
numeric invocation-time year) set to the computed values, overriding any
caller-supplied entries for those keys, while every other key keeps its
supplied value; and the single document written by a successful
`fill_permit` carries exactly that payload. -/
theorem c4_fill_payload (env : Env) (projectData : ProjectData) :
    (∀ k, lookupV (buildFillData projectData env.now) k =
      if k = "permitDate" ∨ k = "applicationDate" ∨ k = "currentDate" then
        Option.some (Value.str (fmtMDY env.now))
      else if k = "year" then Option.some (Value.num env.now.year)
      else lookupV projectData k) ∧
    (∀ templateName permitId permitName result writes,
      fillPermit env templateName permitId permitName projectData =
        Except.ok (result, writes) →
      writes.map WrittenDoc.payload = [buildFillData projectData env.now]) := by
  constructor
  · intro k
    rw [buildFillData, lookupV_setKey, lookupV_setKey, lookupV_setKey, lookupV_setKey]
    by_cases h1 : k = "permitDate" <;> by_cases h2 : k = "applicationDate" <;>
      by_cases h3 : k = "currentDate" <;> by_cases h4 : k = "year" <;>
      simp_all
  · intro templateName permitId permitName result writes hfill
    rw [fillPermit] at hfill
    split at hfill
    · injection hfill with h
      rw [Prod.mk.injEq] at h
      rw [← h.2]
      rfl
    · exact absurd hfill (by simp)

/-- C5: when the permit exists but validation fails, `fill_permit_form`
returns (not raises) the structured payload
`{success:false, error, missingFields, permitName}` and performs no write:
the dispatch produces an `ok` value, and its write list is empty. -/
theorem c5_validation_failure (env : Env) (rules : List Permit) (a : Arguments)
    (permit : Permit)
    (hfound : getPermitById rules a.permitId = Option.some permit)
    (hinvalid : (validateRequiredFields (a.projectData.getD [])
      permit.requiredFields).valid = false) :
    dispatchTool env rules "fill_permit_form" a =
      Except.ok (ToolResponse.json (validationFailJ
        (validateRequiredFields (a.projectData.getD []) permit.requiredFields)
        permit.name), []) ∧
    handleCallTool env rules "fill_permit_form" a =
      (ToolResponse.json (validationFailJ
        (validateRequiredFields (a.projectData.getD []) permit.requiredFields)
        permit.name), []) := by
  have hd : dispatchTool env rules "fill_permit_form" a = fillPermitFormTool env rules a := rfl
  have h1 : fillPermitFormTool env rules a =
      Except.ok (ToolResponse.json (validationFailJ
        (validateRequiredFields (a.projectData.getD []) permit.requiredFields)
        permit.name), []) := by
    rw [fillPermitFormTool]
    simp only [hfound, hinvalid, Bool.not_false, if_true]
  refine ⟨hd.trans h1, ?_⟩
  rw [handleCallTool, hd, h1]

/-- C6: when `fill_all_required_permits` resolves a nonempty permit list,
its response carries exactly one result entry per resolved permit (each
permit is processed independently via `processPermitInfo`, so one
permit's failure cannot stop the others), `totalPermits` equals the
number of resolved permits, a permit failing validation contributes a
`{success:false, ..., missingFields}` entry, and a permit whose fill
raises contributes a `{success:false, permitId, error}` entry. -/
theorem c6_fill_all (env : Env) (rules : List Permit) (a : Arguments)
    (req : List PermitResult) (pdata : ProjectData)
    (hreq : req = identifyPermits rules (a.projectDescription.getD "")
      (Option.some (a.workTypes.getD [])))
    (hpd : pdata = a.projectData.getD [])
    (hne : req ≠ []) :
    handleCallTool env rules "fill_all_required_permits" a =
      (ToolResponse.json (J.obj
        [("totalPermits", J.num (req.map
            (fun pi => (processPermitInfo env rules pdata pi).1)).length),
         ("results", J.arr (req.map
            (fun pi => (processPermitInfo env rules pdata pi).1))),
         ("message", J.str "All required permits have been processed")]),
       (req.map (fun pi => (processPermitInfo env rules pdata pi).2)).flatten) ∧
    (req.map (fun pi => (processPermitInfo env rules pdata pi).1)).length = req.length ∧
    (∀ pi permit, pi ∈ req → getPermitById rules (Option.some pi.id) = Option.some permit →
      (validateRequiredFields pdata permit.requiredFields).valid = false →
      processPermitInfo env rules pdata pi =
        (J.obj [("success", J.bool false), ("permitId", J.str permit.id),
                ("permitName", J.str permit.name),
                ("error", J.str "Missing required fields"),
                ("missingFields", J.arr ((validateRequiredFields pdata
                  permit.requiredFields).missingFields.map J.str))], [])) ∧
    (∀ pi permit e, pi ∈ req → getPermitById rules (Option.some pi.id) = Option.some permit →
      (validateRequiredFields pdata permit.requiredFields).valid = true →
      fillPermit env permit.template permit.id permit.name pdata = Except.error e →
      processPermitInfo env rules pdata pi =
        (J.obj [("success", J.bool false), ("permitId", J.str pi.id),
                ("error", J.str e)], [])) := by
  subst hreq hpd
  refine ⟨?_, by rw [List.length_map], ?_, ?_⟩
  · have hd : dispatchTool env rules "fill_all_required_permits" a =
        fillAllRequiredPermitsTool env rules a := rfl
    rw [handleCallTool, hd, fillAllRequiredPermitsTool]
    rw [if_neg (by simpa [List.isEmpty_iff] using hne)]
    simp only [List.map_map]
    rfl
  · intro pi permit hmem hlook hval
    rw [processPermitInfo, hlook]
    simp only [hval, Bool.not_false, if_true]
  · intro pi permit e hmem hlook hval hfill
    rw [processPermitInfo, hlook]
    simp only [hval, Bool.not_true, Bool.false_eq_true, if_false, hfill]

/-- C7: `fill_permit_form` with a permit id matching no catalog entry
yields the boundary error response, whose text contains
"Permit not found", and no document is written. -/
theorem c7_permit_not_found (env : Env) (rules : List Permit) (a : Arguments)
    (hmiss : getPermitById rules a.permitId = Option.none) :
    handleCallTool env rules "fill_permit_form" a =
      (ToolResponse.text ("Error: Permit not found: " ++ pyStrOpt a.permitId), []) ∧
    strContains ("Error: Permit not found: " ++ pyStrOpt a.permitId)
      "Permit not found" = true := by
  constructor
  · have hd : dispatchTool env rules "fill_permit_form" a = fillPermitFormTool env rules a := rfl
    have h1 : fillPermitFormTool env rules a =
        Except.error ("Permit not found: " ++ pyStrOpt a.permitId) := by
      rw [fillPermitFormTool]
      simp only [hmiss]
    rw [handleCallTool, hd, h1]
    rfl
  · rw [strContains, data_append]
    exact occursIn_append_right _ (by decide)

/-- C8: the tool boundary never propagates an exception: an unrecognized
tool name produces the "Unknown tool" error text, every raised error is
converted to an "Error: ..." text response with no writes, and every
non-raising branch's response is returned unchanged. -/
theorem c8_boundary :
    (∀ (env : Env) (rules : List Permit) (name : String) (a : Arguments),
      name ≠ "identify_required_permits" → name ≠ "preview_permit" →
      name ≠ "preview_all_permits" → name ≠ "fill_permit_form" →
      name ≠ "fill_all_required_permits" → name ≠ "list_available_permits" →
      name ≠ "validate_permit_data" →
      handleCallTool env rules name a =
        (ToolResponse.text ("Error: Unknown tool: " ++ name), [])) ∧
    (∀ (env : Env) (rules : List Permit) (name : String) (a : Arguments) (e : String),
      dispatchTool env rules name a = Except.error e →
      handleCallTool env rules name a = (ToolResponse.text ("Error: " ++ e), [])) ∧
    (∀ (env : Env) (rules : List Permit) (name : String) (a : Arguments)
      (r : ToolResponse × List WrittenDoc),
      dispatchTool env rules name a = Except.ok r →
      handleCallTool env rules name a = r) := by
  refine ⟨?_, ?_, ?_⟩
  · intro env rules name a h1 h2 h3 h4 h5 h6 h7
    rw [handleCallTool, dispatchTool]
    rw [if_neg (by simpa using h1), if_neg (by simpa using h2), if_neg (by simpa using h3),
        if_neg (by simpa using h4), if_neg (by simpa using h5), if_neg (by simpa using h6),
        if_neg (by simpa using h7)]
    rfl
  · intro env rules name a e h
    rw [handleCallTool, h]
  · intro env rules name a r h
    rw [handleCallTool, h]

/-- C9: a successful `fill_permit` names its output file exactly
`{permit_id}-permit-{timestamp}.docx` with the sortable
`YYYYMMDD-HHMMSS` timestamp of the invocation instant, so two successful
fills at the same instant for different permit ids produce different
filenames. -/
theorem c9_filename (env₁ env₂ : Env) (t₁ t₂ pid₁ pid₂ pn₁ pn₂ : String)
    (d₁ d₂ : ProjectData) (r₁ r₂ : FillSuccess) (w₁ w₂ : List WrittenDoc)
    (h₁ : fillPermit env₁ t₁ pid₁ pn₁ d₁ = Except.ok (r₁, w₁))
    (h₂ : fillPermit env₂ t₂ pid₂ pn₂ d₂ = Except.ok (r₂, w₂)) :
    r₁.outputFile = pid₁ ++ "-permit-" ++ fmtTimestamp env₁.now ++ ".docx" ∧
    (env₁.now = env₂.now → pid₁ ≠ pid₂ → r₁.outputFile ≠ r₂.outputFile) := by
  have hout : ∀ (env : Env) (t pid pn : String) (d : ProjectData) (r : FillSuccess)
      (w : List WrittenDoc), fillPermit env t pid pn d = Except.ok (r, w) →
      r.outputFile = pid ++ "-permit-" ++ fmtTimestamp env.now ++ ".docx" := by
    intro env t pid pn d r w h
    rw [fillPermit] at h
    split at h
    · injection h with h
      rw [Prod.mk.injEq] at h
      rw [← h.1]
    · exact absurd h (by simp)
  have ho₁ := hout env₁ t₁ pid₁ pn₁ d₁ r₁ w₁ h₁
  have ho₂ := hout env₂ t₂ pid₂ pn₂ d₂ r₂ w₂ h₂
  refine ⟨ho₁, fun hnow hpid => ?_⟩
  rw [ho₁, ho₂, ← hnow]
  intro hc
  apply hpid
  apply string_eq_of_data
  have hd := congrArg String.data hc
  simp only [data_append, List.append_assoc] at hd
  exact List.append_cancel_right hd

/-- C10: when the argument bag omits `permitId`, the three permit-specific
tools look the permit up with a `None` id, which matches nothing, so all
three return the same "Permit not found" error text (interpolating `None`)
used for an unknown id — never a distinct missing-argument error. -/
theorem c10_missing_permit_id (env : Env) (rules : List Permit) (a : Arguments)
    (ha : a.permitId = Option.none) :
    handleCallTool env rules "preview_permit" a =
      (ToolResponse.text "Error: Permit not found: None", []) ∧
    handleCallTool env rules "fill_permit_form" a =
      (ToolResponse.text "Error: Permit not found: None", []) ∧
    handleCallTool env rules "validate_permit_data" a =
      (ToolResponse.text "Error: Permit not found: None", []) ∧
    strContains "Error: Permit not found: None" "Permit not found" = true := by
  have hm : getPermitById rules a.permitId = Option.none := by
    rw [ha]
    exact getPermitById_none rules
  refine ⟨?_, ?_, ?_, by decide⟩
  · have hd : dispatchTool env rules "preview_permit" a = previewPermitTool env rules a := rfl
    have h1 : previewPermitTool env rules a =
        Except.error ("Permit not found: " ++ pyStrOpt a.permitId) := by
      rw [previewPermitTool]
      simp only [hm]
    rw [handleCallTool, hd, h1, ha]
    rfl
  · have hd : dispatchTool env rules "fill_permit_form" a = fillPermitFormTool env rules a := rfl
    have h1 : fillPermitFormTool env rules a =
        Except.error ("Permit not found: " ++ pyStrOpt a.permitId) := by
      rw [fillPermitFormTool]
      simp only [hm]
    rw [handleCallTool, hd, h1, ha]
    rfl
  · have hd : dispatchTool env rules "validate_permit_data" a =
        validatePermitDataTool rules a := rfl
    have h1 : validatePermitDataTool rules a =
        Except.error ("Permit not found: " ++ pyStrOpt a.permitId) := by
      rw [validatePermitDataTool]
      simp only [hm]
    rw [handleCallTool, hd, h1, ha]
    rfl

/-! ### Witnesses -/

/-- Witness for C3: the demo catalog has no empty or single-space trigger,
and resolving the empty request over it returns the empty list. -/
theorem c3_witness :
    (∀ p ∈ rulesDemo, ∀ t ∈ p.triggers, t ≠ "" ∧ t ≠ " ") ∧
    identifyPermits rulesDemo "" (Option.some []) = [] :=
  ⟨by decide, c3_empty_resolve rulesDemo (by decide)⟩

/-- Witness for C4: at the demo instant the payload maps `year` to the
numeric 2024 and the single written document carries the merged payload. -/
theorem c4_witness :
    lookupV (buildFillData dataOwnerOnly envDemo.now) "year" =
      Option.some (Value.num 2024) ∧
    ([{ filename := "building-permit-20240307-120000.docx", template := "building.docx",
        payload := buildFillData dataOwnerOnly envDemo.now }] : List WrittenDoc).map
      WrittenDoc.payload = [buildFillData dataOwnerOnly envDemo.now] := by
  constructor
  · have h := (c4_fill_payload envDemo dataOwnerOnly).1 "year"
    rw [h]
    decide
  · exact (c4_fill_payload envDemo dataOwnerOnly).2 "building.docx" "building"
      "Building Permit" _ _ rfl

/-- Witness for C5: the electrical permit exists, the demo data is one
field short, and `fill_permit_form` answers with the structured failure
payload and no write. -/
theorem c5_witness :
    getPermitById rulesDemo (Option.some "electrical") = Option.some permitElectrical ∧
    (validateRequiredFields dataOwnerOnly permitElectrical.requiredFields).valid = false ∧
    handleCallTool envDemo rulesDemo "fill_permit_form"
      { permitId := Option.some "electrical", projectData := Option.some dataOwnerOnly } =
      (ToolResponse.json (validationFailJ
        (validateRequiredFields dataOwnerOnly permitElectrical.requiredFields)
        permitElectrical.name), []) := by
  refine ⟨by decide, by decide, ?_⟩
  exact (c5_validation_failure envDemo rulesDemo
    { permitId := Option.some "electrical", projectData := Option.some dataOwnerOnly }
    permitElectrical (by decide) (by decide)).2

/-- Witness for C6: the demo request resolves both demo permits and the
batch response is the per-permit map. -/
theorem c6_witness :
    identifyPermits rulesDemo "construction wiring" (Option.some []) ≠ [] ∧
    handleCallTool envDemo rulesDemo "fill_all_required_permits" argsDemo =
      (ToolResponse.json (J.obj
        [("totalPermits", J.num ((identifyPermits rulesDemo "construction wiring"
            (Option.some [])).map (fun pi =>
            (processPermitInfo envDemo rulesDemo dataOwnerOnly pi).1)).length),
         ("results", J.arr ((identifyPermits rulesDemo "construction wiring"
            (Option.some [])).map (fun pi =>
            (processPermitInfo envDemo rulesDemo dataOwnerOnly pi).1))),
         ("message", J.str "All required permits have been processed")]),
       ((identifyPermits rulesDemo "construction wiring" (Option.some [])).map
          (fun pi => (processPermitInfo envDemo rulesDemo dataOwnerOnly pi).2)).flatten) := by
  refine ⟨by decide, ?_⟩
  exact (c6_fill_all envDemo rulesDemo argsDemo
    (identifyPermits rulesDemo "construction wiring" (Option.some []))
    dataOwnerOnly rfl rfl (by decide)).1

/-- Witness for C7: an id missing from the demo catalog produces the
"Permit not found" error text and no write. -/
theorem c7_witness :
    getPermitById rulesDemo (Option.some "nope") = Option.none ∧
    handleCallTool envDemo rulesDemo "fill_permit_form" { permitId := Option.some "nope" } =
      (ToolResponse.text ("Error: Permit not found: " ++ pyStrOpt (Option.some "nope")), []) ∧
    strContains ("Error: Permit not found: " ++ pyStrOpt (Option.some "nope"))
      "Permit not found" = true := by
  have h := c7_permit_not_found envDemo rulesDemo { permitId := Option.some "nope" } (by decide)
  exact ⟨by decide, h.1, h.2⟩

/-- Witness for C8: an unrecognized tool name yields the unknown-tool
error, and a raised "Permit not found" is converted at the boundary. -/
theorem c8_witness :
    handleCallTool envDemo rulesDemo "frobnicate" {} =
      (ToolResponse.text "Error: Unknown tool: frobnicate", []) ∧
    handleCallTool envDemo rulesDemo "fill_permit_form" { permitId := Option.some "nope" } =
      (ToolResponse.text "Error: Permit not found: nope", []) := by
  constructor
  · exact c8_boundary.1 envDemo rulesDemo "frobnicate" {}
      (by decide) (by decide) (by decide) (by decide) (by decide) (by decide) (by decide)
  · exact c8_boundary.2.1 envDemo rulesDemo "fill_permit_form"
      { permitId := Option.some "nope" } "Permit not found: nope" rfl

/-- Witness for C9: two same-instant fills for the two demo permits
succeed and produce the stated, distinct filenames. -/
theorem c9_witness :
    fillPermit envDemo "building.docx" "building" "Building Permit" dataOwnerOnly =
      Except.ok
        ({ permitName := "Building Permit",
           outputFile := "building-permit-20240307-120000.docx",
           outputPath := "output/building-permit-20240307-120000.docx",
           message := "Building Permit has been filled and saved" },
         [{ filename := "building-permit-20240307-120000.docx", template := "building.docx",
            payload := buildFillData dataOwnerOnly envDemo.now }]) ∧
    fillPermit envDemo "electrical.docx" "electrical" "Electrical Permit" dataOwnerOnly =
      Except.ok
        ({ permitName := "Electrical Permit",
           outputFile := "electrical-permit-20240307-120000.docx",
           outputPath := "output/electrical-permit-20240307-120000.docx",
           message := "Electrical Permit has been filled and saved" },
         [{ filename := "electrical-permit-20240307-120000.docx", template := "electrical.docx",
            payload := buildFillData dataOwnerOnly envDemo.now }]) ∧
    "building-permit-20240307-120000.docx" =
      "building" ++ "-permit-" ++ fmtTimestamp envDemo.now ++ ".docx" ∧
    ("building-permit-20240307-120000.docx" : String) ≠
      "electrical-permit-20240307-120000.docx" := by
  have hb : fillPermit envDemo "building.docx" "building" "Building Permit" dataOwnerOnly =
      Except.ok
        ({ permitName := "Building Permit",
           outputFile := "building-permit-20240307-120000.docx",
           outputPath := "output/building-permit-20240307-120000.docx",
           message := "Building Permit has been filled and saved" },
         [{ filename := "building-permit-20240307-120000.docx", template := "building.docx",
            payload := buildFillData dataOwnerOnly envDemo.now }]) := rfl
  have he : fillPermit envDemo "electrical.docx" "electrical" "Electrical Permit" dataOwnerOnly =
      Except.ok
        ({ permitName := "Electrical Permit",
           outputFile := "electrical-permit-20240307-120000.docx",
           outputPath := "output/electrical-permit-20240307-120000.docx",
           message := "Electrical Permit has been filled and saved" },
         [{ filename := "electrical-permit-20240307-120000.docx", template := "electrical.docx",
            payload := buildFillData dataOwnerOnly envDemo.now }]) := rfl
  have h := c9_filename envDemo envDemo "building.docx" "electrical.docx" "building" "electrical"
    "Building Permit" "Electrical Permit" dataOwnerOnly dataOwnerOnly _ _ _ _ hb he
  exact ⟨hb, he, h.1, h.2 rfl (by decide)⟩

/-- Witness for C10: the empty argument bag omits `permitId`, and both
`preview_permit` and `validate_permit_data` return the interpolated
"Permit not found: None" error. -/
theorem c10_witness :
    ({} : Arguments).permitId = Option.none ∧
    handleCallTool envDemo rulesDemo "preview_permit" {} =
      (ToolResponse.text "Error: Permit not found: None", []) ∧
    handleCallTool envDemo rulesDemo "validate_permit_data" {} =
      (ToolResponse.text "Error: Permit not found: None", []) := by
  have h := c10_missing_permit_id envDemo rulesDemo {} rfl
  exact ⟨rfl, h.1, h.2.2.1⟩
